import Mathlib

/-!
Verification of the esp-hal GDMA channel-management subsystem
(`src/esp-hal-common/src/dma/gdma.rs` and `src/esp-hal-common/src/system.rs`).

The register-level definitions are a shallow embedding of the source compiled
for the ESP32-C3 configuration: the `#[cfg(not(esp32s3))]` and
`#[cfg(not(esp32c2))]` paths are active, so channels 0, 1, 2 exist, the
per-channel interrupt flags live in a single `int_raw_ch{N}` / `int_clr_ch{N}`
register pair per channel, and `Peripheral::Gdma` clock gating uses the
`perip_clk_en1` / `perip_rst_en1` registers.  The per-channel code is a single
macro (`impl_channel!`) instantiated at each index with its own register group;
we model the register group of one channel (`ChannelRegs`) and the macro body
once, exactly as the macro expands for each index.

The chip-variant-dependent channel counts (claims about "every supported
variant") are modelled separately by `gdmaChannels`, read off the `#[cfg]`
gates on `impl_channel!` and on the fields of `Gdma`.

svd2rust semantics used throughout:
* `reg.modify(|_, w| ...)` is a read-modify-write: fields not named keep their
  value (the `rest` component of each register structure models all bits of
  the register the source never names).
* `reg.write(|w| ...)` resets unnamed fields to their reset value.  The only
  `write` calls in the source target the single-field priority registers and
  the write-1-to-clear `int_clr` registers; for the latter, writing 0 to a
  clear-bit is a no-op on the raw status, so the effect on the raw interrupt
  state is exactly: the named flags are cleared, all others are untouched.
-/

namespace EspHal

/-! ## `system.rs`: `Peripheral` and `PeripheralClockControl` (ESP32-C3 arms) -/

/-- `Peripheral` enum from `system.rs`, restricted to the variants present
under the ESP32-C3 `cfg` gates (`Spi3`/`Rmt` require `not(esp32c2)`,
`ApbSarAdc` requires `esp32c2`/`esp32c3`, `Gdma` requires
`esp32c2`/`esp32c3`/`esp32s3`; `I2cExt1`, `Dma` and `Usb` are gated out). -/
inductive Peripheral
  | Spi2
  | Spi3
  | I2cExt0
  | Rmt
  | Ledc
  | ApbSarAdc
  | Gdma
  deriving DecidableEq

/-- The bit-fields of the `SYSTEM` clock/reset registers that
`PeripheralClockControl::enable` touches on ESP32-C3.  The `*_clk_en` fields
live in `perip_clk_en0` (or `perip_clk_en1` for `dma_clk_en`), the `*_rst`
fields in `perip_rst_en0` (resp. `perip_rst_en1`); all field names are
distinct, so the four registers are flattened into one field-indexed map. -/
inductive SysField
  | spi2_clk_en
  | spi2_rst
  | spi3_clk_en
  | spi3_rst
  | i2c_ext0_clk_en
  | i2c_ext0_rst
  | rmt_clk_en
  | rmt_rst
  | ledc_clk_en
  | ledc_rst
  | apb_saradc_clk_en
  | apb_saradc_rst
  | dma_clk_en
  | dma_rst
  deriving DecidableEq

/-- State of the `SYSTEM` peripheral-clock/reset bits. -/
def SysRegs : Type := SysField → Bool

/-- One `modify(|_, w| w.f().bit(b))` on a clock/reset field: the named field
is written, every other field keeps its value. -/
def setSysField (f0 : SysField) (b : Bool) (s : SysRegs) : SysRegs :=
  fun f => if f = f0 then b else s f

/-- `PeripheralClockControl::enable` (`system.rs` lines 44-117), ESP32-C3
arms.  Each arm is two register `modify` calls: set the peripheral's
clock-enable bit, then clear its reset bit. -/
def enable (p : Peripheral) (s : SysRegs) : SysRegs :=
  match p with
  | .Spi2 => setSysField .spi2_rst false (setSysField .spi2_clk_en true s)
  | .Spi3 => setSysField .spi3_rst false (setSysField .spi3_clk_en true s)
  | .I2cExt0 =>
      setSysField .i2c_ext0_rst false (setSysField .i2c_ext0_clk_en true s)
  | .Rmt => setSysField .rmt_rst false (setSysField .rmt_clk_en true s)
  | .Ledc => setSysField .ledc_rst false (setSysField .ledc_clk_en true s)
  | .ApbSarAdc =>
      setSysField .apb_saradc_rst false (setSysField .apb_saradc_clk_en true s)
  | .Gdma => setSysField .dma_rst false (setSysField .dma_clk_en true s)

/-- The clock-enable field of a peripheral's domain. -/
def clkFieldOf (p : Peripheral) : SysField :=
  match p with
  | .Spi2 => .spi2_clk_en
  | .Spi3 => .spi3_clk_en
  | .I2cExt0 => .i2c_ext0_clk_en
  | .Rmt => .rmt_clk_en
  | .Ledc => .ledc_clk_en
  | .ApbSarAdc => .apb_saradc_clk_en
  | .Gdma => .dma_clk_en

/-- The reset-hold field of a peripheral's domain. -/
def rstFieldOf (p : Peripheral) : SysField :=
  match p with
  | .Spi2 => .spi2_rst
  | .Spi3 => .spi3_rst
  | .I2cExt0 => .i2c_ext0_rst
  | .Rmt => .rmt_rst
  | .Ledc => .ledc_rst
  | .ApbSarAdc => .apb_saradc_rst
  | .Gdma => .dma_rst

/-- Classifies the clock-enable fields. -/
def isClkField : SysField → Bool
  | .spi2_clk_en | .spi3_clk_en | .i2c_ext0_clk_en | .rmt_clk_en
  | .ledc_clk_en | .apb_saradc_clk_en | .dma_clk_en => true
  | _ => false

/-- Classifies the reset-hold fields. -/
def isRstField : SysField → Bool
  | .spi2_rst | .spi3_rst | .i2c_ext0_rst | .rmt_rst
  | .ledc_rst | .apb_saradc_rst | .dma_rst => true
  | _ => false

/-! ## `dma/gdma.rs`: per-channel register group, `not(esp32s3)` layout -/

/-- `out_conf0_ch{N}`: the fields named by the source plus `rest` for every
other bit of the register. -/
structure OutConf0 where
  out_rst : Bool
  out_data_burst_en : Bool
  outdscr_burst_en : Bool
  rest : Nat
  deriving DecidableEq

/-- `in_conf0_ch{N}`: the fields named by the source plus `rest`. -/
structure InConf0 where
  in_rst : Bool
  in_data_burst_en : Bool
  indscr_burst_en : Bool
  rest : Nat
  deriving DecidableEq

/-- `out_link_ch{N}` / `in_link_ch{N}`: descriptor-list address field, the
start bit, and `rest` for the remaining bits. -/
structure LinkReg where
  addr : Nat
  start : Bool
  rest : Nat
  deriving DecidableEq

/-- The raw interrupt flags of one channel's `int_raw_ch{N}` register
(`not(esp32s3)` layout: out-direction and in-direction flags share one
register per channel). -/
inductive IntFlag
  | out_eof
  | out_dscr_err
  | out_done
  | out_total_eof
  | outfifo_ovf
  | outfifo_udf
  | in_suc_eof
  | in_err_eof
  | in_dscr_err
  | in_dscr_empty
  | in_done
  | infifo_ovf
  | infifo_udf
  deriving DecidableEq

/-- Flags belonging to the transmit (out) direction. -/
def isOutFlag : IntFlag → Bool
  | .out_eof | .out_dscr_err | .out_done | .out_total_eof
  | .outfifo_ovf | .outfifo_udf => true
  | _ => false

/-- Flags belonging to the receive (in) direction. -/
def isInFlag : IntFlag → Bool
  | .in_suc_eof | .in_err_eof | .in_dscr_err | .in_dscr_empty
  | .in_done | .infifo_ovf | .infifo_udf => true
  | _ => false

/-- The register group of one physical channel (index `N` of the
`impl_channel!` expansion): `out_conf0_ch{N}`, `out_pri_ch{N}`,
`out_link_ch{N}`, `out_peri_sel_ch{N}`, the in-direction counterparts, and
the shared `int_raw_ch{N}` raw-status register. -/
structure ChannelRegs where
  out_conf0 : OutConf0
  out_pri : Nat
  out_link : LinkReg
  out_peri_sel : Nat
  in_conf0 : InConf0
  in_pri : Nat
  in_link : LinkReg
  in_peri_sel : Nat
  int_raw : IntFlag → Bool

/-- `RegisterAccess::init_channel`: "nothing special to be done here". -/
def init_channel (c : ChannelRegs) : ChannelRegs := c

/-- `RegisterAccess::set_out_burstmode`: one `modify` setting both
`out_data_burst_en_ch{N}` and `outdscr_burst_en_ch{N}` to `burst_mode`. -/
def set_out_burstmode (burst_mode : Bool) (c : ChannelRegs) : ChannelRegs :=
  { c with out_conf0 := { c.out_conf0 with
      out_data_burst_en := burst_mode, outdscr_burst_en := burst_mode } }

/-- `RegisterAccess::set_out_priority`: `write` of `tx_pri_ch{N}` (the
register's only field) with the priority ordinal. -/
def set_out_priority (priority : Nat) (c : ChannelRegs) : ChannelRegs :=
  { c with out_pri := priority }

/-- The flags named (in source order) by the `int_clr_ch{N}` write in
`RegisterAccess::clear_out_interrupts`. -/
def outIntClrFlags : List IntFlag :=
  [.out_eof, .out_dscr_err, .out_done, .out_total_eof,
   .outfifo_ovf, .outfifo_udf]

/-- `RegisterAccess::clear_out_interrupts`: write-1-to-clear of the six named
out-direction flags; every other raw flag gets a 0 clear-bit (no-op). -/
def clear_out_interrupts (c : ChannelRegs) : ChannelRegs :=
  { c with int_raw := fun f => if f ∈ outIntClrFlags then false else c.int_raw f }

/-- First `modify` of `RegisterAccess::reset_out`: set `out_rst_ch{N}`. -/
def reset_out_assert (c : ChannelRegs) : ChannelRegs :=
  { c with out_conf0 := { c.out_conf0 with out_rst := true } }

/-- Second `modify` of `RegisterAccess::reset_out`: clear `out_rst_ch{N}`. -/
def reset_out_deassert (c : ChannelRegs) : ChannelRegs :=
  { c with out_conf0 := { c.out_conf0 with out_rst := false } }

/-- `RegisterAccess::reset_out`: the set-then-clear pulse. -/
def reset_out (c : ChannelRegs) : ChannelRegs :=
  reset_out_deassert (reset_out_assert c)

/-- `RegisterAccess::set_out_descriptors`: `modify` of
`outlink_addr_ch{N}` only. -/
def set_out_descriptors (address : Nat) (c : ChannelRegs) : ChannelRegs :=
  { c with out_link := { c.out_link with addr := address } }

/-- `RegisterAccess::has_out_descriptor_error`: read of
`out_dscr_err_ch{N}_int_raw`. -/
def has_out_descriptor_error (c : ChannelRegs) : Bool :=
  c.int_raw .out_dscr_err

/-- `RegisterAccess::set_out_peripheral`: `modify` of `peri_out_sel_ch{N}`. -/
def set_out_peripheral (peripheral : Nat) (c : ChannelRegs) : ChannelRegs :=
  { c with out_peri_sel := peripheral }

/-- `RegisterAccess::start_out`: `modify` setting `outlink_start_ch{N}`. -/
def start_out (c : ChannelRegs) : ChannelRegs :=
  { c with out_link := { c.out_link with start := true } }

/-- `RegisterAccess::is_out_done`: read of `out_total_eof_ch{N}_int_raw`. -/
def is_out_done (c : ChannelRegs) : Bool :=
  c.int_raw .out_total_eof

/-- `RegisterAccess::set_in_burstmode`. -/
def set_in_burstmode (burst_mode : Bool) (c : ChannelRegs) : ChannelRegs :=
  { c with in_conf0 := { c.in_conf0 with
      in_data_burst_en := burst_mode, indscr_burst_en := burst_mode } }

/-- `RegisterAccess::set_in_priority`: `write` of `rx_pri_ch{N}`. -/
def set_in_priority (priority : Nat) (c : ChannelRegs) : ChannelRegs :=
  { c with in_pri := priority }

/-- The flags named (in source order) by the `int_clr_ch{N}` write in
`RegisterAccess::clear_in_interrupts`. -/
def inIntClrFlags : List IntFlag :=
  [.in_suc_eof, .in_err_eof, .in_dscr_err, .in_dscr_empty,
   .in_done, .infifo_ovf, .infifo_udf]

/-- `RegisterAccess::clear_in_interrupts`: write-1-to-clear of the seven
named in-direction flags. -/
def clear_in_interrupts (c : ChannelRegs) : ChannelRegs :=
  { c with int_raw := fun f => if f ∈ inIntClrFlags then false else c.int_raw f }

/-- First `modify` of `RegisterAccess::reset_in`: set `in_rst_ch{N}`. -/
def reset_in_assert (c : ChannelRegs) : ChannelRegs :=
  { c with in_conf0 := { c.in_conf0 with in_rst := true } }

/-- Second `modify` of `RegisterAccess::reset_in`: clear `in_rst_ch{N}`. -/
def reset_in_deassert (c : ChannelRegs) : ChannelRegs :=
  { c with in_conf0 := { c.in_conf0 with in_rst := false } }

/-- `RegisterAccess::reset_in`: the set-then-clear pulse. -/
def reset_in (c : ChannelRegs) : ChannelRegs :=
  reset_in_deassert (reset_in_assert c)

/-- `RegisterAccess::set_in_descriptors`. -/
def set_in_descriptors (address : Nat) (c : ChannelRegs) : ChannelRegs :=
  { c with in_link := { c.in_link with addr := address } }

/-- `RegisterAccess::has_in_descriptor_error`: read of
`in_dscr_err_ch{N}_int_raw`. -/
def has_in_descriptor_error (c : ChannelRegs) : Bool :=
  c.int_raw .in_dscr_err

/-- `RegisterAccess::set_in_peripheral`. -/
def set_in_peripheral (peripheral : Nat) (c : ChannelRegs) : ChannelRegs :=
  { c with in_peri_sel := peripheral }

/-- `RegisterAccess::start_in`. -/
def start_in (c : ChannelRegs) : ChannelRegs :=
  { c with in_link := { c.in_link with start := true } }

/-- `RegisterAccess::is_in_done`: read of `in_suc_eof_ch{N}_int_raw`. -/
def is_in_done (c : ChannelRegs) : Bool :=
  c.int_raw .in_suc_eof

/-! ## `TxChannel` / `RxChannel` init and `ChannelCreator::configure` -/

/-- Modelled from the spec: the body of `TxChannel::init` lives in
`dma/mod.rs`, which is not part of the sources; spec §4.3 gives the sequence
`port.init()` then `set_burst_mode` then `set_priority`.  The priority
ordinal (`DmaPriority`, also from `dma/mod.rs`) is modelled as the `Nat` the
source passes through with `priority as u8`. -/
def tx_init (burst_mode : Bool) (priority : Nat) (c : ChannelRegs) :
    ChannelRegs :=
  set_out_priority priority (set_out_burstmode burst_mode (init_channel c))

/-- Modelled from the spec: the body of `RxChannel::init` (see `tx_init`);
spec §4.3: `port.init()` then `set_burst_mode` then `set_priority`. -/
def rx_init (burst_mode : Bool) (priority : Nat) (c : ChannelRegs) :
    ChannelRegs :=
  set_in_priority priority (set_in_burstmode burst_mode (init_channel c))

/-- The `ChannelTx` value built by `configure`: the borrowed descriptor
chain and the burst flag (the `tx_impl` marker and `PhantomData` carry no
data). -/
structure ChannelTxVal where
  descriptors : List Nat
  burst_mode : Bool
  deriving DecidableEq

/-- The `ChannelRx` value built by `configure`. -/
structure ChannelRxVal where
  descriptors : List Nat
  burst_mode : Bool
  deriving DecidableEq

/-- The `Channel` value returned by `configure`. -/
structure ChannelVal where
  tx : ChannelTxVal
  rx : ChannelRxVal
  deriving DecidableEq

/-- `ChannelCreator{N}::configure` (`gdma.rs` lines 315-348), acting on the
channel's register group: `tx_impl.init(burst_mode, priority)`, build the
`ChannelTx`, `rx_impl.init(burst_mode, priority)`, build the `ChannelRx`,
return the `Channel`.  Note that the function is infallible (its return type
is `Channel`, not a `Result`), performs no check on the descriptor slices,
and never touches the descriptor-base (`out_link`/`in_link`) registers. -/
def configure (burst_mode : Bool) (tx_descriptors rx_descriptors : List Nat)
    (priority : Nat) (c : ChannelRegs) : ChannelVal × ChannelRegs :=
  let c1 := tx_init burst_mode priority c
  let tx_channel : ChannelTxVal := ⟨tx_descriptors, burst_mode⟩
  let c2 := rx_init burst_mode priority c1
  let rx_channel : ChannelRxVal := ⟨rx_descriptors, burst_mode⟩
  (⟨tx_channel, rx_channel⟩, c2)

/-- A concrete all-zero / all-clear channel register group, used as the
explicit starting state of the counterexamples. -/
def regs0 : ChannelRegs where
  out_conf0 := ⟨false, false, false, 0⟩
  out_pri := 0
  out_link := ⟨0, false, 0⟩
  out_peri_sel := 0
  in_conf0 := ⟨false, false, false, 0⟩
  in_pri := 0
  in_link := ⟨0, false, 0⟩
  in_peri_sel := 0
  int_raw := fun _ => false

/-- A channel register group with every raw interrupt flag set. -/
def regsAllSet : ChannelRegs :=
  { regs0 with int_raw := fun _ => true }

/-! ## Chip variants and channel counts

Read off the `#[cfg]` gates in `gdma.rs`: `impl_channel!(0)` is
unconditional, `impl_channel!(1)` and `impl_channel!(2)` require
`not(esp32c2)`, `impl_channel!(3)` and `impl_channel!(4)` require `esp32s3`;
the `Gdma` struct fields `channel0..channel4` carry the same gates.  The
variants for which the GDMA engine exists are those of the
`Peripheral::Gdma` gate in `system.rs`: `esp32c2`, `esp32c3`, `esp32s3`. -/

/-- The chip variants supporting the GDMA engine. -/
inductive Variant
  | esp32c2
  | esp32c3
  | esp32s3
  deriving DecidableEq

/-- The physical channel indices whose `ChannelCreator{N}` field exists in
`Gdma` on each variant. -/
def gdmaChannels : Variant → List Nat
  | .esp32c2 => [0]
  | .esp32c3 => [0, 1, 2]
  | .esp32s3 => [0, 1, 2, 3, 4]

/-! ## Process model: ownership and write ordering

`Gdma::new` and `ChannelCreator{N}::configure` enforce their protocol through
Rust move semantics: `new` consumes the `pac::DMA` singleton and is the only
producer of `ChannelCreator` values, and `configure` takes its creator by
value.  We embed this as a small-step transition system over an explicit
ownership state plus the history of register writes.  Register writes are
recorded as events; the per-channel writes of `configure` follow the
(spec-modelled) `tx_init`/`rx_init` sequences, and any later use of a live
channel's register port is covered by the generic `chanOp` step. -/

/-- Writes to the `SYSTEM` registers performed by
`PeripheralClockControl::enable(Peripheral::Gdma)`. -/
inductive SysWrite
  | dmaClkEnSet
  | dmaRstClear
  deriving DecidableEq

/-- Writes to the global `misc_conf` register of the DMA engine performed by
`Gdma::new`. -/
inductive MiscWrite
  | ahbmRstSet
  | ahbmRstClear
  | clkEnSet
  deriving DecidableEq

/-- Writes to the register group of one channel. -/
inductive ChanWrite
  | outBurst (b : Bool)
  | outPri (p : Nat)
  | outIntClr
  | outRstSet
  | outRstClear
  | outLinkAddr (a : Nat)
  | outPeriSel (p : Nat)
  | outLinkStart
  | inBurst (b : Bool)
  | inPri (p : Nat)
  | inIntClr
  | inRstSet
  | inRstClear
  | inLinkAddr (a : Nat)
  | inPeriSel (p : Nat)
  | inLinkStart
  deriving DecidableEq

/-- A register-write event (ESP32-C3: channel indices are `Fin 3`). -/
inductive Event
  | sysW (w : SysWrite)
  | miscW (w : MiscWrite)
  | chanW (i : Fin 3) (w : ChanWrite)
  deriving DecidableEq

/-- Is this event a per-channel register access? -/
def isChanWrite : Event → Bool
  | .chanW _ _ => true
  | _ => false

/-- The clock-enable write: `perip_clk_en1.modify(dma_clk_en set)`. -/
def clkEnEvent : Event := .sysW .dmaClkEnSet

/-- The write sequence of `Gdma::new` (`gdma.rs` lines 397-400):
`enable(Peripheral::Gdma)` (clock-enable set, then reset-bit clear), then
the `ahbm_rst_inter` assert/deassert pulse, then the `clk_en` set. -/
def gdmaNewEvents : List Event :=
  [.sysW .dmaClkEnSet, .sysW .dmaRstClear,
   .miscW .ahbmRstSet, .miscW .ahbmRstClear, .miscW .clkEnSet]

/-- The per-channel writes of `tx_init` on channel `i` (spec-modelled
sequence, see `tx_init`; `init_channel` performs no write). -/
def txInitEvents (i : Fin 3) (b : Bool) (p : Nat) : List Event :=
  [.chanW i (.outBurst b), .chanW i (.outPri p)]

/-- The per-channel writes of `rx_init` on channel `i`. -/
def rxInitEvents (i : Fin 3) (b : Bool) (p : Nat) : List Event :=
  [.chanW i (.inBurst b), .chanW i (.inPri p)]

/-- The per-channel writes of `ChannelCreator{i}::configure`: the tx side is
initialized first, then the rx side. -/
def configureEvents (i : Fin 3) (b : Bool) (p : Nat) : List Event :=
  txInitEvents i b p ++ rxInitEvents i b p

/-- Ownership state of a program run plus the history of register writes
(oldest first).  `dmaTokenLive` is the not-yet-consumed `pac::DMA` singleton;
`creators i` records whether `ChannelCreator{i}` is live; `channels i` counts
live `Channel` values bound to index `i`; `configCount i` counts completed
`configure` calls on index `i`. -/
structure ProgState where
  dmaTokenLive : Bool
  creators : Fin 3 → Bool
  channels : Fin 3 → Nat
  configCount : Fin 3 → Nat
  events : List Event

/-- The initial program state: the `pac::DMA` singleton exists, no creator or
channel exists, nothing has been written. -/
def initState : ProgState where
  dmaTokenLive := true
  creators := fun _ => false
  channels := fun _ => 0
  configCount := fun _ => 0
  events := []

/-- Effect of `Gdma::new`: consumes the `pac::DMA` singleton, performs the
bring-up writes, and only then do the `ChannelCreator` values exist. -/
def gdmaNewPost (s : ProgState) : ProgState :=
  { s with
    dmaTokenLive := false
    creators := fun _ => true
    events := s.events ++ gdmaNewEvents }

/-- Effect of `ChannelCreator{i}::configure`: consumes the creator, performs
the init writes, and yields one more live `Channel` for index `i`. -/
def configurePost (i : Fin 3) (b : Bool) (p : Nat) (s : ProgState) :
    ProgState :=
  { s with
    creators := Function.update s.creators i false
    channels := Function.update s.channels i (s.channels i + 1)
    configCount := Function.update s.configCount i (s.configCount i + 1)
    events := s.events ++ configureEvents i b p }

/-- Effect of any later `RegisterAccess` write through a live channel. -/
def chanOpPost (i : Fin 3) (w : ChanWrite) (s : ProgState) : ProgState :=
  { s with events := s.events ++ [.chanW i w] }

/-- The transition relation: the three operations of the subsystem, each
guarded by the ownership its Rust signature demands. -/
inductive Step : ProgState → ProgState → Prop
  | gdmaNew {s : ProgState} (h : s.dmaTokenLive = true) :
      Step s (gdmaNewPost s)
  | configure {s : ProgState} (i : Fin 3) (b : Bool) (p : Nat)
      (h : s.creators i = true) : Step s (configurePost i b p s)
  | chanOp {s : ProgState} (i : Fin 3) (w : ChanWrite)
      (h : 1 ≤ s.channels i) : Step s (chanOpPost i w s)

/-- States reachable from the initial state. -/
inductive Reachable : ProgState → Prop
  | init : Reachable initState
  | step {s t : ProgState} : Reachable s → Step s t → Reachable t

/-- `goodTrace l = true` iff no per-channel register access occurs before the
first clock-enable write in `l`. -/
def goodTrace : List Event → Bool
  | [] => true
  | e :: rest => if e = clkEnEvent then true else !isChanWrite e && goodTrace rest

/-- The inductive invariant of the transition system: before `Gdma::new` runs
nothing exists and nothing has been written; creators and channels exist only
after the clock-enable write; the trace never accesses a channel register
before the clock-enable write; each index is configured at most once, with
one live channel per completed configuration, and a live creator means its
index is still unconfigured. -/
structure Inv (s : ProgState) : Prop where
  fresh : s.dmaTokenLive = true →
    s.events = [] ∧ (∀ i, s.creators i = false) ∧ (∀ i, s.channels i = 0)
  creatorClk : ∀ i, s.creators i = true → clkEnEvent ∈ s.events
  channelClk : ∀ i, 1 ≤ s.channels i → clkEnEvent ∈ s.events
  trace : goodTrace s.events = true
  chanCount : ∀ i, s.channels i = s.configCount i
  countLe : ∀ i, s.configCount i ≤ 1
  creatorFresh : ∀ i, s.creators i = true → s.configCount i = 0

/-- The state right after `Gdma::new`. -/
def exStateA : ProgState := gdmaNewPost initState

/-- The state after `Gdma::new` followed by `channel0.configure(true, .., 5)`. -/
def exStateB : ProgState := configurePost 0 true 5 (gdmaNewPost initState)

/-- A channel register state in which only `in_suc_eof` is raised. -/
def regsInSucEofOnly : ChannelRegs :=
  { regs0 with int_raw := fun f => f == IntFlag.in_suc_eof }

/-- A channel register state in which only `out_total_eof` is raised. -/
def regsOutTotalEofOnly : ChannelRegs :=
  { regs0 with int_raw := fun f => f == IntFlag.out_total_eof }

/-- Appending anything to a good trace that already contains the
clock-enable write keeps the trace good. -/
theorem goodTrace_append (l l' : List Event) (hm : clkEnEvent ∈ l)
    (hg : goodTrace l = true) : goodTrace (l ++ l') = true := by
  induction l with
  | nil => simp at hm
  | cons e rest ih =>
    by_cases he : e = clkEnEvent
    · simp [goodTrace, he]
    · simp only [goodTrace, if_neg he, Bool.and_eq_true, List.cons_append] at hg ⊢
      refine ⟨hg.1, ih ?_ hg.2⟩
      rcases List.mem_cons.mp hm with h | h
      · exact absurd h.symm he
      · exact h

/-- Positional reading of `goodTrace`: every per-channel write in a good
trace is preceded by the clock-enable write. -/
theorem goodTrace_get (l : List Event) (hg : goodTrace l = true) (k : Nat)
    (hk : k < l.length) (hc : isChanWrite (l.get ⟨k, hk⟩) = true) :
    ∃ j, ∃ hj : j < l.length, j < k ∧ l.get ⟨j, hj⟩ = clkEnEvent := by
  induction l generalizing k with
  | nil => simp at hk
  | cons e rest ih =>
    by_cases he : e = clkEnEvent
    · match k with
      | 0 =>
        have hce : isChanWrite e = true := hc
        rw [he] at hce
        exact absurd hce (by decide)
      | Nat.succ k0 =>
        exact ⟨0, by simp, Nat.succ_pos k0, by simpa using he⟩
    · simp only [goodTrace, if_neg he, Bool.and_eq_true] at hg
      obtain ⟨h1, h2⟩ := hg
      match k with
      | 0 =>
        have hce : isChanWrite e = true := hc
        rw [hce] at h1
        simp at h1
      | Nat.succ k0 =>
        have hk0 : k0 < rest.length := by
          simpa [Nat.succ_lt_succ_iff] using hk
        have hc0 : isChanWrite (rest.get ⟨k0, hk0⟩) = true := by
          simpa using hc
        obtain ⟨j, hj, hjk, hje⟩ := ih h2 k0 hk0 hc0
        exact ⟨j + 1, by simpa [Nat.succ_lt_succ_iff] using hj,
          Nat.succ_lt_succ hjk, by simpa using hje⟩

theorem inv_init : Inv initState := by
  refine ⟨fun _ => ⟨rfl, fun _ => rfl, fun _ => rfl⟩, ?_, ?_, rfl,
    fun _ => rfl, fun _ => Nat.zero_le 1, fun _ _ => rfl⟩
  · intro i h
    simp [initState] at h
  · intro i h
    simp [initState] at h

theorem inv_step {s t : ProgState} (hInv : Inv s) (hs : Step s t) : Inv t := by
  cases hs with
  | gdmaNew h =>
    obtain ⟨hev, hcr, hch⟩ := hInv.fresh h
    refine ⟨?_, ?_, ?_, ?_, ?_, ?_, ?_⟩
    · intro h'
      simp [gdmaNewPost] at h'
    · intro i _
      show clkEnEvent ∈ s.events ++ gdmaNewEvents
      rw [hev, List.nil_append]
      decide
    · intro i h1
      show clkEnEvent ∈ s.events ++ gdmaNewEvents
      rw [hev, List.nil_append]
      decide
    · show goodTrace (s.events ++ gdmaNewEvents) = true
      rw [hev, List.nil_append]
      decide
    · exact hInv.chanCount
    · exact hInv.countLe
    · intro i _
      have h1 := hInv.chanCount i
      have h2 := hch i
      show s.configCount i = 0
      omega
  | configure i b p h =>
    have hclk : clkEnEvent ∈ s.events := hInv.creatorClk i h
    have htok : s.dmaTokenLive = false := by
      rcases Bool.eq_false_or_eq_true s.dmaTokenLive with ht | ht
      · have := (hInv.fresh ht).2.1 i
        rw [this] at h
        exact absurd h (by simp)
      · exact ht
    refine ⟨?_, ?_, ?_, ?_, ?_, ?_, ?_⟩
    · intro h'
      rw [show (configurePost i b p s).dmaTokenLive = s.dmaTokenLive from rfl,
        htok] at h'
      exact absurd h' (by simp)
    · intro j hj
      show clkEnEvent ∈ s.events ++ configureEvents i b p
      by_cases hji : j = i
      · rw [show (configurePost i b p s).creators j = Function.update
          s.creators i false j from rfl, hji, Function.update_same] at hj
        exact absurd hj (by simp)
      · rw [show (configurePost i b p s).creators j = Function.update
          s.creators i false j from rfl, Function.update_noteq hji] at hj
        exact List.mem_append_left _ (hInv.creatorClk j hj)
    · intro j hj
      show clkEnEvent ∈ s.events ++ configureEvents i b p
      by_cases hji : j = i
      · exact List.mem_append_left _ hclk
      · rw [show (configurePost i b p s).channels j = Function.update
          s.channels i (s.channels i + 1) j from rfl,
          Function.update_noteq hji] at hj
        exact List.mem_append_left _ (hInv.channelClk j hj)
    · exact goodTrace_append _ _ hclk hInv.trace
    · intro j
      show Function.update s.channels i (s.channels i + 1) j =
        Function.update s.configCount i (s.configCount i + 1) j
      by_cases hji : j = i
      · subst hji
        rw [Function.update_same, Function.update_same, hInv.chanCount j]
      · rw [Function.update_noteq hji, Function.update_noteq hji]
        exact hInv.chanCount j
    · intro j
      show Function.update s.configCount i (s.configCount i + 1) j ≤ 1
      by_cases hji : j = i
      · subst hji
        rw [Function.update_same, hInv.creatorFresh j h]
      · rw [Function.update_noteq hji]
        exact hInv.countLe j
    · intro j hj
      by_cases hji : j = i
      · rw [show (configurePost i b p s).creators j = Function.update
          s.creators i false j from rfl, hji, Function.update_same] at hj
        exact absurd hj (by simp)
      · rw [show (configurePost i b p s).creators j = Function.update
          s.creators i false j from rfl, Function.update_noteq hji] at hj
        show Function.update s.configCount i (s.configCount i + 1) j = 0
        rw [Function.update_noteq hji]
        exact hInv.creatorFresh j hj
  | chanOp i w h =>
    have hclk : clkEnEvent ∈ s.events := hInv.channelClk i h
    have htok : s.dmaTokenLive = false := by
      rcases Bool.eq_false_or_eq_true s.dmaTokenLive with ht | ht
      · have := (hInv.fresh ht).2.2 i
        omega
      · exact ht
    refine ⟨?_, ?_, ?_, ?_, ?_, ?_, ?_⟩
    · intro h'
      rw [show (chanOpPost i w s).dmaTokenLive = s.dmaTokenLive from rfl,
        htok] at h'
      exact absurd h' (by simp)
    · intro j hj
      exact List.mem_append_left _ (hInv.creatorClk j hj)
    · intro j hj
      exact List.mem_append_left _ (hInv.channelClk j hj)
    · exact goodTrace_append _ _ hclk hInv.trace
    · exact hInv.chanCount
    · exact hInv.countLe
    · exact hInv.creatorFresh

/-- Every reachable state satisfies the invariant. -/
theorem reachable_inv {s : ProgState} (h : Reachable s) : Inv s := by
  induction h with
  | init => exact inv_init
  | step _ hs ih => exact inv_step ih hs

/-- `exStateA` is reachable: run `Gdma::new` on the initial state. -/
theorem exStateA_reachable : Reachable exStateA :=
  Reachable.step Reachable.init (Step.gdmaNew rfl)

/-- `exStateB` is reachable: run `Gdma::new`, then consume `channel0`. -/
theorem exStateB_reachable : Reachable exStateB :=
  Reachable.step exStateA_reachable (Step.configure 0 true 5 rfl)

/-- Pointwise form of `enable`: the peripheral's reset field is cleared, its
clock-enable field is set, every other field keeps its value. -/
theorem enable_apply (p : Peripheral) (s : SysRegs) (f : SysField) :
    enable p s f =
      if f = rstFieldOf p then false
      else if f = clkFieldOf p then true
      else s f := by
  cases p <;> rfl

/-- The reset field of a peripheral is never a clock-enable field and
conversely. -/
theorem fieldOf_classified (p : Peripheral) :
    isClkField (clkFieldOf p) = true ∧ isRstField (rstFieldOf p) = true ∧
      isClkField (rstFieldOf p) = false ∧ isRstField (clkFieldOf p) = false ∧
      clkFieldOf p ≠ rstFieldOf p := by
  cases p <;> exact ⟨rfl, rfl, rfl, rfl, by decide⟩

/-! ## Claims -/

/-- C1: for every physical channel index, `ChannelCreator::configure` can run
at most once per program run: in every reachable ownership state, the number
of completed `configure` calls on an index is at most one, at most one live
`Channel` exists for the index, and no creator coexists with a live channel
for its own index (`configure` consumes the creator, and `Gdma::new` — the
sole producer of creators — consumes the `pac::DMA` singleton and so cannot
rerun). -/
theorem C1_configure_once (s : ProgState) (h : Reachable s) (i : Fin 3) :
    s.configCount i ≤ 1 ∧ s.channels i ≤ 1 ∧
      ¬(s.creators i = true ∧ 1 ≤ s.channels i) := by
  have hInv := reachable_inv h
  refine ⟨hInv.countLe i, ?_, ?_⟩
  · have h1 := hInv.chanCount i
    have h2 := hInv.countLe i
    omega
  · rintro ⟨hc, hch⟩
    have h0 := hInv.creatorFresh i hc
    have h1 := hInv.chanCount i
    omega

theorem C1_configure_once_witness :
    exStateB.configCount 0 ≤ 1 ∧ exStateB.channels 0 ≤ 1 ∧
      ¬(exStateB.creators 0 = true ∧ 1 ≤ exStateB.channels 0) :=
  C1_configure_once exStateB exStateB_reachable 0

/-- C2: `Gdma::new` first performs the clock-enable write of
`enable(Peripheral::Gdma)` (clock-enable bit set, then reset bit cleared),
then the `ahbm_rst_inter` assert/deassert pulse and the `clk_en` write; only
afterwards do `ChannelCreator`s exist.  In every reachable state, any live
creator or channel implies the clock-enable write is in the history (creators
are obtainable only through `Gdma::new`), and every per-channel register
write in the history is preceded by the clock-enable write. -/
theorem C2_clock_enable_first (s : ProgState) (h : Reachable s) :
    gdmaNewEvents =
      [Event.sysW SysWrite.dmaClkEnSet, Event.sysW SysWrite.dmaRstClear,
       Event.miscW MiscWrite.ahbmRstSet, Event.miscW MiscWrite.ahbmRstClear,
       Event.miscW MiscWrite.clkEnSet] ∧
    (∀ i, s.creators i = true → clkEnEvent ∈ s.events) ∧
    (∀ i, 1 ≤ s.channels i → clkEnEvent ∈ s.events) ∧
    (∀ k, ∀ hk : k < s.events.length,
      isChanWrite (s.events.get ⟨k, hk⟩) = true →
      ∃ j, ∃ hj : j < s.events.length, j < k ∧
        s.events.get ⟨j, hj⟩ = clkEnEvent) := by
  have hInv := reachable_inv h
  exact ⟨rfl, hInv.creatorClk, hInv.channelClk,
    fun k hk hc => goodTrace_get _ hInv.trace k hk hc⟩

theorem C2_clock_enable_first_witness : clkEnEvent ∈ exStateA.events :=
  (C2_clock_enable_first exStateA exStateA_reachable).2.1 0 rfl

/-- C3 counterexample: the claimed per-direction flag set (end-of-frame,
descriptor error, per-descriptor done, total-end-of-frame, FIFO overflow,
FIFO underflow) is wrong for the receive direction.  Starting from a state
with every raw flag set, `clear_in_interrupts` also clears `in_err_eof` and
`in_dscr_empty` — receive-direction flags outside the claimed six — and it
clears no total-end-of-frame flag: the only total-EOF flag of the channel,
`out_total_eof`, stays set (the receive direction has no total-EOF flag at
all in the register layout). -/
theorem C3_counterexample :
    (clear_in_interrupts regsAllSet).int_raw IntFlag.in_err_eof = false ∧
    (clear_in_interrupts regsAllSet).int_raw IntFlag.in_dscr_empty = false ∧
    (clear_in_interrupts regsAllSet).int_raw IntFlag.out_total_eof = true ∧
    isInFlag IntFlag.in_err_eof = true ∧
    isInFlag IntFlag.in_dscr_empty = true := by
  decide

/-- C3 amended: `clear_out_interrupts` clears exactly the complete
out-direction flag set (the six flags `out_eof`, `out_dscr_err`, `out_done`,
`out_total_eof`, `outfifo_ovf`, `outfifo_udf`) and `clear_in_interrupts`
clears exactly the complete in-direction flag set, which is the seven flags
`in_suc_eof`, `in_err_eof`, `in_dscr_err`, `in_dscr_empty`, `in_done`,
`infifo_ovf`, `infifo_udf` (no in-direction total-EOF flag exists); each
leaves the other direction's flags and every non-interrupt register
untouched. -/
theorem C3_clear_interrupts (c : ChannelRegs) :
    (∀ f, (clear_out_interrupts c).int_raw f =
      (if isOutFlag f = true then false else c.int_raw f)) ∧
    (∀ f, (clear_in_interrupts c).int_raw f =
      (if isInFlag f = true then false else c.int_raw f)) ∧
    outIntClrFlags = [IntFlag.out_eof, IntFlag.out_dscr_err, IntFlag.out_done,
      IntFlag.out_total_eof, IntFlag.outfifo_ovf, IntFlag.outfifo_udf] ∧
    inIntClrFlags = [IntFlag.in_suc_eof, IntFlag.in_err_eof,
      IntFlag.in_dscr_err, IntFlag.in_dscr_empty, IntFlag.in_done,
      IntFlag.infifo_ovf, IntFlag.infifo_udf] ∧
    (clear_out_interrupts c).out_conf0 = c.out_conf0 ∧
    (clear_out_interrupts c).out_pri = c.out_pri ∧
    (clear_out_interrupts c).out_link = c.out_link ∧
    (clear_out_interrupts c).out_peri_sel = c.out_peri_sel ∧
    (clear_out_interrupts c).in_conf0 = c.in_conf0 ∧
    (clear_out_interrupts c).in_pri = c.in_pri ∧
    (clear_out_interrupts c).in_link = c.in_link ∧
    (clear_out_interrupts c).in_peri_sel = c.in_peri_sel ∧
    (clear_in_interrupts c).out_conf0 = c.out_conf0 ∧
    (clear_in_interrupts c).out_pri = c.out_pri ∧
    (clear_in_interrupts c).out_link = c.out_link ∧
    (clear_in_interrupts c).out_peri_sel = c.out_peri_sel ∧
    (clear_in_interrupts c).in_conf0 = c.in_conf0 ∧
    (clear_in_interrupts c).in_pri = c.in_pri ∧
    (clear_in_interrupts c).in_link = c.in_link ∧
    (clear_in_interrupts c).in_peri_sel = c.in_peri_sel := by
  refine ⟨?_, ?_, rfl, rfl, rfl, rfl, rfl, rfl, rfl, rfl, rfl, rfl, rfl, rfl,
    rfl, rfl, rfl, rfl, rfl, rfl⟩
  · intro f
    cases f <;> rfl
  · intro f
    cases f <;> rfl

/-- C4 counterexample: `is_in_done` does not read a total-end-of-frame bit.
In a state where only `in_suc_eof` is raised — and in particular the
channel's only total-EOF flag, `out_total_eof`, is clear — `is_in_done`
returns `true`; in a state where only `out_total_eof` is raised it returns
`false`.  So for the receive direction `is_done` is not "true iff the
total-EOF raw bit is set" (no receive-direction total-EOF bit even exists in
the register layout). -/
theorem C4_counterexample :
    is_in_done regsInSucEofOnly = true ∧
    regsInSucEofOnly.int_raw IntFlag.out_total_eof = false ∧
    is_in_done regsOutTotalEofOnly = false ∧
    regsOutTotalEofOnly.int_raw IntFlag.out_total_eof = true := by
  decide

/-- C4 amended: `is_out_done` returns exactly the out-direction total-EOF raw
bit (`out_total_eof`), and `is_in_done` returns exactly the in-direction
success-EOF raw bit (`in_suc_eof`) — the receive direction's
transfer-complete flag, there being no receive total-EOF bit; each answer is
exactly the value of that single bit. -/
theorem C4_is_done (c : ChannelRegs) (b : Bool) :
    is_out_done c = c.int_raw IntFlag.out_total_eof ∧
    is_in_done c = c.int_raw IntFlag.in_suc_eof ∧
    is_out_done { c with int_raw := Function.update c.int_raw IntFlag.out_total_eof b } = b ∧
    is_in_done { c with int_raw := Function.update c.int_raw IntFlag.in_suc_eof b } = b := by
  refine ⟨rfl, rfl, ?_, ?_⟩ <;>
    simp [is_out_done, is_in_done, Function.update_same]

/-- C5 counterexample: `ChannelCreator::configure` performs no emptiness
check and cannot fail (its return type is `Channel`, not a `Result`).
Called with empty tx and rx descriptor chains it completes normally,
returning a `Channel` carrying the empty chains, and it still performs its
register writes: starting from the all-zero register state the priority
registers now hold 5 and the burst-enable bit is set — refuting both "fails
with a configuration error" and "no register write is performed". -/
theorem C5_counterexample :
    (configure true [] [] 5 regs0).1.tx.descriptors = [] ∧
    (configure true [] [] 5 regs0).1.rx.descriptors = [] ∧
    (configure true [] [] 5 regs0).2.out_pri = 5 ∧
    (configure true [] [] 5 regs0).2.in_pri = 5 ∧
    (configure true [] [] 5 regs0).2.out_conf0.out_data_burst_en = true ∧
    regs0.out_pri = 0 ∧
    regs0.out_conf0.out_data_burst_en = false := by
  decide

/-- C5 amended: `configure` does not validate descriptor-chain emptiness and
has no error path: with empty chains it succeeds, returns the `Channel` with
the empty chains recorded, and performs its usual init register writes
(burst mode and priority for both directions). -/
theorem C5_configure_empty (c : ChannelRegs) (b : Bool) (p : Nat) :
    (configure b [] [] p c).1 = ⟨⟨[], b⟩, ⟨[], b⟩⟩ ∧
    (configure b [] [] p c).2 = rx_init b p (tx_init b p c) ∧
    (configure b [] [] p c).2.out_pri = p ∧
    (configure b [] [] p c).2.in_pri = p ∧
    (configure b [] [] p c).2.out_conf0.out_data_burst_en = b ∧
    (configure b [] [] p c).2.in_conf0.in_data_burst_en = b :=
  ⟨rfl, rfl, rfl, rfl, rfl, rfl⟩

/-- C6: `enable` is idempotent — a second consecutive `enable(p)` leaves the
whole register state identical to the state after one call — and each call
sets `p`'s clock-enable bit and clears `p`'s reset-hold bit. -/
theorem C6_enable_idempotent (p : Peripheral) (s : SysRegs) :
    enable p (enable p s) = enable p s ∧
    enable p s (clkFieldOf p) = true ∧
    enable p s (rstFieldOf p) = false := by
  obtain ⟨_, _, _, _, hne⟩ := fieldOf_classified p
  refine ⟨funext fun f => ?_, ?_, ?_⟩
  · rw [enable_apply, enable_apply]
    by_cases h1 : f = rstFieldOf p
    · simp [h1]
    · by_cases h2 : f = clkFieldOf p <;> simp [h1, h2]
  · rw [enable_apply, if_neg hne, if_pos rfl]
  · rw [enable_apply, if_pos rfl]

/-- C7 counterexample: the scenario's descriptor-base part fails.
`configure(burst_mode=true, tx=[0x1000], rx=[0x2000], priority=5)` on
channel 0, starting from the all-zero register state, leaves the TX and RX
descriptor-base (`out_link`/`in_link` address) registers at 0, not 0x1000 /
0x2000: `configure` never calls `set_out_descriptors`/`set_in_descriptors`.
The priority and burst parts do hold. -/
theorem C7_counterexample :
    (configure true [0x1000] [0x2000] 5 regs0).2.out_link.addr = 0 ∧
    (configure true [0x1000] [0x2000] 5 regs0).2.in_link.addr = 0 ∧
    (0 : Nat) ≠ 0x1000 ∧ (0 : Nat) ≠ 0x2000 ∧
    (configure true [0x1000] [0x2000] 5 regs0).2.out_pri = 5 ∧
    (configure true [0x1000] [0x2000] 5 regs0).2.out_conf0.out_data_burst_en
      = true := by
  decide

/-- C7 amended: after `configure(burst_mode=true, tx=[0x1000], rx=[0x2000],
priority=5)` on channel 0, the TX priority register holds 5 and both TX
burst-enable bits are 1, symmetrically for RX; the descriptor chains are
recorded in the returned `Channel` (tx `[0x1000]`, rx `[0x2000]`), but the
descriptor-base registers are not written — they keep whatever value they
had (descriptor programming happens later, at transfer preparation). -/
theorem C7_configure_scenario (c : ChannelRegs) :
    (configure true [0x1000] [0x2000] 5 c).2.out_pri = 5 ∧
    (configure true [0x1000] [0x2000] 5 c).2.out_conf0.out_data_burst_en
      = true ∧
    (configure true [0x1000] [0x2000] 5 c).2.out_conf0.outdscr_burst_en
      = true ∧
    (configure true [0x1000] [0x2000] 5 c).2.in_pri = 5 ∧
    (configure true [0x1000] [0x2000] 5 c).2.in_conf0.in_data_burst_en
      = true ∧
    (configure true [0x1000] [0x2000] 5 c).2.in_conf0.indscr_burst_en
      = true ∧
    (configure true [0x1000] [0x2000] 5 c).2.out_link = c.out_link ∧
    (configure true [0x1000] [0x2000] 5 c).2.in_link = c.in_link ∧
    (configure true [0x1000] [0x2000] 5 c).1.tx.descriptors = [0x1000] ∧
    (configure true [0x1000] [0x2000] 5 c).1.rx.descriptors = [0x2000] :=
  ⟨rfl, rfl, rfl, rfl, rfl, rfl, rfl, rfl, rfl, rfl⟩

/-- C8: for both directions, `reset` is a pulse of the direction's reset bit:
the first `modify` sets it to 1, the second sets it back to 0, so the bit is
clear afterwards whatever its prior value; no other bit of the configuration
register, and no other register, changes. -/
theorem C8_reset_pulse (c : ChannelRegs) :
    reset_out c = reset_out_deassert (reset_out_assert c) ∧
    (reset_out_assert c).out_conf0.out_rst = true ∧
    (reset_out c).out_conf0 = { c.out_conf0 with out_rst := false } ∧
    (reset_out c).out_pri = c.out_pri ∧
    (reset_out c).out_link = c.out_link ∧
    (reset_out c).out_peri_sel = c.out_peri_sel ∧
    (reset_out c).in_conf0 = c.in_conf0 ∧
    (reset_out c).in_pri = c.in_pri ∧
    (reset_out c).in_link = c.in_link ∧
    (reset_out c).in_peri_sel = c.in_peri_sel ∧
    (reset_out c).int_raw = c.int_raw ∧
    reset_in c = reset_in_deassert (reset_in_assert c) ∧
    (reset_in_assert c).in_conf0.in_rst = true ∧
    (reset_in c).in_conf0 = { c.in_conf0 with in_rst := false } ∧
    (reset_in c).out_conf0 = c.out_conf0 ∧
    (reset_in c).out_pri = c.out_pri ∧
    (reset_in c).out_link = c.out_link ∧
    (reset_in c).in_pri = c.in_pri ∧
    (reset_in c).in_link = c.in_link ∧
    (reset_in c).int_raw = c.int_raw :=
  ⟨rfl, rfl, rfl, rfl, rfl, rfl, rfl, rfl, rfl, rfl, rfl, rfl, rfl, rfl, rfl,
   rfl, rfl, rfl, rfl, rfl⟩

/-- C9 counterexample: the claimed channel-count range 2..5 fails — the
ESP32-C2 variant (for which the GDMA engine and this module exist, per the
`cfg` gates) exposes exactly one `ChannelCreator` (`channel0` only). -/
theorem C9_counterexample :
    (gdmaChannels Variant.esp32c2).length = 1 ∧
    ¬(2 ≤ (gdmaChannels Variant.esp32c2).length) := by
  decide

/-- C9 amended: every supported variant exposes exactly N creators, one per
physical channel index 0..N-1, where N is 1 (ESP32-C2), 3 (ESP32-C3) or
5 (ESP32-S3) — between 1 and 5, not 2 and 5.  On the 3-channel variant the
creators are exactly those for indices 0, 1, 2 and no creator for index 3
exists. -/
theorem C9_channel_counts :
    (∀ v, gdmaChannels v = List.range (gdmaChannels v).length) ∧
    gdmaChannels Variant.esp32c2 = [0] ∧
    gdmaChannels Variant.esp32c3 = [0, 1, 2] ∧
    gdmaChannels Variant.esp32s3 = [0, 1, 2, 3, 4] ∧
    3 ∉ gdmaChannels Variant.esp32c3 ∧
    (∀ v, 1 ≤ (gdmaChannels v).length ∧ (gdmaChannels v).length ≤ 5) := by
  refine ⟨?_, rfl, rfl, rfl, by decide, ?_⟩ <;> intro v <;> cases v <;> decide

/-- C10: `enable(p)` is frame-preserving and monotone: its full effect is to
force `p`'s reset field to 0 and `p`'s clock-enable field to 1, leaving every
other field exactly as it was (first conjunct); the forced-to-1 field is a
clock-enable field and the forced-to-0 field is a reset field (second and
third conjuncts), and they are not of the opposite kind (fourth and fifth),
so no clock-enable bit is ever cleared and no reset bit is ever set.  The
last two conjuncts state monotonicity directly as boolean inequalities: a
set clock-enable bit stays set, and a clear reset bit stays clear. -/
theorem C10_enable_frame (p : Peripheral) (s : SysRegs) (f : SysField) :
    (enable p s f =
      if f = rstFieldOf p then false
      else if f = clkFieldOf p then true
      else s f) ∧
    isClkField (clkFieldOf p) = true ∧
    isRstField (rstFieldOf p) = true ∧
    isClkField (rstFieldOf p) = false ∧
    isRstField (clkFieldOf p) = false ∧
    ((isClkField f && s f) ≤ enable p s f) ∧
    (enable p s f ≤ (!isRstField f || s f)) := by
  obtain ⟨h1, h2, h3, h4, hne⟩ := fieldOf_classified p
  refine ⟨enable_apply p s f, h1, h2, h3, h4, ?_, ?_⟩
  · rw [enable_apply]
    by_cases hr : f = rstFieldOf p
    · subst hr
      rw [h3]
      simp
    · by_cases hc : f = clkFieldOf p
      · subst hc
        rw [if_neg hne, if_pos rfl]
        exact Bool.le_true _
      · simp only [if_neg hr, if_neg hc]
        exact Bool.and_le_right _ _
  · rw [enable_apply]
    by_cases hr : f = rstFieldOf p
    · simp [hr]
    · by_cases hc : f = clkFieldOf p
      · subst hc
        rw [h4]
        simp
      · simp only [if_neg hr, if_neg hc]
        cases s f <;> simp

end EspHal
